import Mathlib

/-!
Verification of `structure.py` from griptape-example-agent-structure.

The script is CLI glue: it checks for the marker environment variable
`GT_CLOUD_STRUCTURE_RUN_ID`, registers a cloud event listener when present
or loads a local `.env` file when absent, parses a prompt and a `--model`
option (an enumeration of three OpenAI model identifiers), constructs one
agent with a single `DateTimeTool`, and runs it once with the prompt.

We embed the script shallowly: the process environment is an association
list, and every externally visible action (listener registration,
`load_dotenv` call, agent construction, agent run) is recorded as an event
in a trace.  Functions thread the environment explicitly so that mutation
(or its absence) is provable.
-/

namespace StructurePy

/-- The process environment (`os.environ`): an association list from
variable names to values. -/
abbrev Env := List (String × String)

/-- Membership test `key in os.environ`: true exactly when the key is
present (regardless of its value, empty string included). -/
def envMem (env : Env) (k : String) : Bool :=
  (env.lookup k).isSome

/-- The marker environment variable checked by `setup_cloud_listener`. -/
def markerVar : String := "GT_CLOUD_STRUCTURE_RUN_ID"

/-- Externally visible actions the script performs, in order. -/
inductive Event where
  /-- Registration `EventBus.add_event_listener(EventListener(...))` with
  the named event listener driver class. -/
  | addEventListener (driver : String)
  /-- Invocation of `load_dotenv()`. -/
  | loadDotenvCalled
  /-- Construction of `Agent(prompt_driver=..., tools=...)`: `model? = some m`
  when an `OpenAiChatPromptDriver(model=m)` was passed explicitly, `none`
  when the library-default driver/model is used; `tools` lists the attached
  tool class names. -/
  | agentConstructed (model? : Option String) (tools : List String)
  /-- Call `.run(prompt)` with a single prompt string. -/
  | agentRun (prompt : String)
  /-- Call `.run(*args)`: run invoked with a list of positional prompt
  fragments passed through (Variant A). -/
  | agentRunArgs (args : List String)
deriving DecidableEq, Repr

/-- Modelled from the spec: `python-dotenv`'s `load_dotenv()` (the external
local-config loader, not part of `src/`) reads `KEY=VALUE` pairs from a
local file and loads them into the process environment; with its default
settings an already-present key is not overridden. `file` is the parsed
content of the local `.env` file. -/
def load_dotenv (file : Env) (env : Env) : Env :=
  file.foldl (fun e kv => if envMem e kv.1 then e else e ++ [kv]) env

/-- The function `setup_cloud_listener` (structure.py lines 12-25): if the marker
variable is in the environment, register a `GriptapeCloudEventListenerDriver`
listener on the event bus; otherwise call `load_dotenv()`.  Returns the
resulting environment and the trace of events. -/
def setup_cloud_listener (file : Env) (env : Env) : Env × List Event :=
  if envMem env markerVar then
    (env, [Event.addEventListener "GriptapeCloudEventListenerDriver"])
  else
    (load_dotenv file env, [Event.loadDotenvCalled])

/-- The `Model(str, Enum)` class (structure.py lines 27-30). -/
inductive Model where
  | GPT4
  | GPT35
  | GTP4_MINI
deriving DecidableEq, Repr

/-- The string value of each enum member, exactly as written in the source. -/
def Model.value : Model → String
  | .GPT4 => "gpt-4o"
  | .GPT35 => "gpt-3.5-turbo"
  | .GTP4_MINI => "gpt-4o-mini"

/-- The `run` command body (structure.py lines 32-36): call
`setup_cloud_listener()`, then construct
`Agent(prompt_driver=OpenAiChatPromptDriver(model=model), tools=[DateTimeTool()])`
and invoke `.run(prompt)`. -/
def run (file : Env) (env : Env) (prompt : String) (model : Model) :
    Env × List Event :=
  let r := setup_cloud_listener file env
  (r.1, r.2 ++ [Event.agentConstructed (some model.value) ["DateTimeTool"],
                Event.agentRun prompt])

/-- The argument-parsing layer for `--model`/`--m`: typer validates an enum
option against the enum members' string values and converts a matching
argument to the member; any other string is rejected. -/
def parseModel (s : String) : Option Model :=
  if s = "gpt-4o" then some Model.GPT4
  else if s = "gpt-3.5-turbo" then some Model.GPT35
  else if s = "gpt-4o-mini" then some Model.GTP4_MINI
  else none

/-- The whole CLI invocation of the `run` command: `modelArg? = none` when
`--model`/`--m` is omitted (the typer default `Model.GPT4` applies), and
`some s` when the flag is given with value `s`.  An invalid model value is
rejected by the argument-parsing layer before any agent work happens: the
process exits non-zero, modelled as `Except.error`. -/
def runCli (file : Env) (env : Env) (prompt : String)
    (modelArg? : Option String) : Except String (Env × List Event) :=
  match modelArg? with
  | none => Except.ok (run file env prompt Model.GPT4)
  | some s =>
    match parseModel s with
    | some m => Except.ok (run file env prompt m)
    | none => Except.error ("Invalid value for --model: " ++ s)

/-- Modelled from the spec: Variant A of the script (not present under
`src/`, which only holds Variant B) accepts zero or more trailing
positional arguments as prompt fragments, passes them through to the
agent's run call, and offers no model selection — the agent is constructed
with the library-default model (`model? = none`) and the single date/time
tool, after the same environment resolution step. -/
def variantA (file : Env) (env : Env) (args : List String) :
    Env × List Event :=
  let r := setup_cloud_listener file env
  (r.1, r.2 ++ [Event.agentConstructed none ["DateTimeTool"],
                Event.agentRunArgs args])

/-- Recognizes agent-construction events. -/
def Event.isAgentConstructed : Event → Bool
  | .agentConstructed _ _ => true
  | _ => false

/-- Recognizes agent `.run` invocations (either form). -/
def Event.isAgentRun : Event → Bool
  | .agentRun _ => true
  | .agentRunArgs _ => true
  | _ => false

/-- C1: when the marker variable is present, `setup_cloud_listener`
registers the cloud event listener and does not call `load_dotenv`;
moreover in no environment does its trace contain both the registration
and the local load. -/
theorem c1_managed_registers_listener_not_dotenv
    (file env : Env) (h : envMem env markerVar = true) :
    Event.addEventListener "GriptapeCloudEventListenerDriver" ∈
        (setup_cloud_listener file env).2 ∧
      Event.loadDotenvCalled ∉ (setup_cloud_listener file env).2 ∧
      ∀ f e, ¬ (Event.addEventListener "GriptapeCloudEventListenerDriver" ∈
            (setup_cloud_listener f e).2 ∧
          Event.loadDotenvCalled ∈ (setup_cloud_listener f e).2) := by
  refine ⟨?_, ?_, ?_⟩
  · simp [setup_cloud_listener, h]
  · simp [setup_cloud_listener, h]
  · intro f e
    unfold setup_cloud_listener
    split <;> simp

/-- Witness for C1 at a concrete managed environment. -/
theorem c1_witness :
    envMem [("GT_CLOUD_STRUCTURE_RUN_ID", "abc")] markerVar = true ∧
      Event.addEventListener "GriptapeCloudEventListenerDriver" ∈
        (setup_cloud_listener [] [("GT_CLOUD_STRUCTURE_RUN_ID", "abc")]).2 :=
  ⟨by decide,
    (c1_managed_registers_listener_not_dotenv []
      [("GT_CLOUD_STRUCTURE_RUN_ID", "abc")] (by decide)).1⟩

/-- C2: when the marker variable is absent, a `run` command invocation calls
`load_dotenv` exactly once, and that call happens before the agent is
constructed. -/
theorem c2_local_dotenv_once_before_agent
    (file env : Env) (prompt : String) (model : Model)
    (h : envMem env markerVar = false) :
    (run file env prompt model).2.count Event.loadDotenvCalled = 1 ∧
      ∃ i j, i < j ∧
        (run file env prompt model).2.get? i = some Event.loadDotenvCalled ∧
        (run file env prompt model).2.get? j =
          some (Event.agentConstructed (some model.value) ["DateTimeTool"]) := by
  have htrace : (run file env prompt model).2 =
      [Event.loadDotenvCalled,
       Event.agentConstructed (some model.value) ["DateTimeTool"],
       Event.agentRun prompt] := by
    simp [run, setup_cloud_listener, h]
  refine ⟨?_, 0, 1, ?_, ?_, ?_⟩ <;> simp [htrace]

/-- Witness for C2 at a concrete local (marker-free) environment. -/
theorem c2_witness :
    envMem [("HOME", "/root")] markerVar = false ∧
      (run [] [("HOME", "/root")] "hi" Model.GPT4).2.count
        Event.loadDotenvCalled = 1 :=
  ⟨by decide,
    (c2_local_dotenv_once_before_agent [] [("HOME", "/root")] "hi" Model.GPT4
      (by decide)).1⟩

/-- C3: any `--model` value outside the three-element enumeration is
rejected at the argument-parsing layer: the invocation yields an error
(non-zero exit) and never a successful trace, so no agent is constructed. -/
theorem c3_invalid_model_rejected
    (file env : Env) (prompt s : String)
    (h : s ≠ "gpt-4o" ∧ s ≠ "gpt-3.5-turbo" ∧ s ≠ "gpt-4o-mini") :
    runCli file env prompt (some s) =
        Except.error ("Invalid value for --model: " ++ s) ∧
      ∀ r, runCli file env prompt (some s) ≠ Except.ok r := by
  obtain ⟨h1, h2, h3⟩ := h
  refine ⟨?_, ?_⟩ <;> simp [runCli, parseModel, h1, h2, h3]

/-- Witness for C3 at the concrete invalid model string "gpt-5". -/
theorem c3_witness :
    ("gpt-5" ≠ "gpt-4o" ∧ "gpt-5" ≠ "gpt-3.5-turbo" ∧
        "gpt-5" ≠ "gpt-4o-mini") ∧
      runCli [] [] "hi" (some "gpt-5") =
        Except.error ("Invalid value for --model: " ++ "gpt-5") :=
  ⟨by decide, (c3_invalid_model_rejected [] [] "hi" "gpt-5" (by decide)).1⟩

/-- C4: omitting `--model` selects exactly the identifier "gpt-4o", and the
agent is constructed with a prompt driver bound to that exact identifier. -/
theorem c4_default_model_gpt4o (file env : Env) (prompt : String) :
    runCli file env prompt none = Except.ok (run file env prompt Model.GPT4) ∧
      Model.GPT4.value = "gpt-4o" ∧
      Event.agentConstructed (some "gpt-4o") ["DateTimeTool"] ∈
        (run file env prompt Model.GPT4).2 := by
  refine ⟨rfl, rfl, ?_⟩
  simp only [run, setup_cloud_listener, Model.value]
  split <;> simp

/-- C5: the set of strings accepted for `--model`/`--m` is exactly the three
literals "gpt-4o", "gpt-3.5-turbo" and "gpt-4o-mini". -/
theorem c5_accepted_models_exact (s : String) :
    (parseModel s).isSome = true ↔
      (s = "gpt-4o" ∨ s = "gpt-3.5-turbo" ∨ s = "gpt-4o-mini") := by
  unfold parseModel
  split_ifs with h1 h2 h3 <;> simp [*]

/-- The run-command trace is the environment-resolution trace followed by
agent construction and the single run call. -/
theorem run_trace_eq (file env : Env) (prompt : String) (model : Model) :
    (run file env prompt model).2 =
      (setup_cloud_listener file env).2 ++
        [Event.agentConstructed (some model.value) ["DateTimeTool"],
         Event.agentRun prompt] := rfl

/-- Environment resolution emits exactly one event: either the listener
registration or the local load. -/
theorem setup_trace_cases (file env : Env) :
    (setup_cloud_listener file env).2 =
        [Event.addEventListener "GriptapeCloudEventListenerDriver"] ∨
      (setup_cloud_listener file env).2 = [Event.loadDotenvCalled] := by
  unfold setup_cloud_listener
  split <;> simp

/-- C6: managed mode is selected by mere presence of the marker variable:
any value (the empty string included) yields listener registration, and
only absence yields the local branch. -/
theorem c6_presence_any_value_selects_managed (file env : Env) :
    ((∃ v, env.lookup markerVar = some v) →
      (setup_cloud_listener file env).2 =
        [Event.addEventListener "GriptapeCloudEventListenerDriver"]) ∧
    (env.lookup markerVar = none →
      (setup_cloud_listener file env).2 = [Event.loadDotenvCalled]) := by
  constructor
  · rintro ⟨v, hv⟩
    simp [setup_cloud_listener, envMem, hv]
  · intro hv
    simp [setup_cloud_listener, envMem, hv]

/-- Witness for C6 at a marker variable whose value is the empty string. -/
theorem c6_witness :
    (setup_cloud_listener [] [("GT_CLOUD_STRUCTURE_RUN_ID", "")]).2 =
      [Event.addEventListener "GriptapeCloudEventListenerDriver"] :=
  (c6_presence_any_value_selects_managed []
    [("GT_CLOUD_STRUCTURE_RUN_ID", "")]).1 ⟨"", rfl⟩

/-- C7: Variant A (modelled from the spec) accepts any list of positional
prompt fragments — zero or more — passes exactly that list through to the
agent's run call, constructs the agent with the library-default model, and
never selects an explicit model. -/
theorem c7_variantA_passthrough_no_model_selection
    (file env : Env) (args : List String) :
    Event.agentRunArgs args ∈ (variantA file env args).2 ∧
      Event.agentConstructed none ["DateTimeTool"] ∈
        (variantA file env args).2 ∧
      ∀ m ts, Event.agentConstructed (some m) ts ∉ (variantA file env args).2 := by
  have h : (variantA file env args).2 =
      (setup_cloud_listener file env).2 ++
        [Event.agentConstructed none ["DateTimeTool"],
         Event.agentRunArgs args] := rfl
  rcases setup_trace_cases file env with hs | hs <;>
    · rw [h, hs]
      refine ⟨by simp, by simp, ?_⟩
      intro m ts
      simp

/-- Witness for C7 on the spec's scenario arguments, with an empty-args
invocation alongside. -/
theorem c7_witness :
    Event.agentRunArgs ["What", "time", "is", "it?"] ∈
        (variantA [] [] ["What", "time", "is", "it?"]).2 ∧
      Event.agentRunArgs [] ∈ (variantA [] [] []).2 :=
  ⟨(c7_variantA_passthrough_no_model_selection []
      [] ["What", "time", "is", "it?"]).1,
    (c7_variantA_passthrough_no_model_selection [] [] []).1⟩

/-- C8: every run-command invocation constructs exactly one agent, that
agent carries exactly the one DateTimeTool capability, and the single-shot
run operation is invoked exactly once, with the resolved prompt. -/
theorem c8_one_agent_one_tool_one_run
    (file env : Env) (prompt : String) (model : Model) :
    (run file env prompt model).2.countP Event.isAgentConstructed = 1 ∧
      (∀ m ts, Event.agentConstructed m ts ∈ (run file env prompt model).2 →
        ts = ["DateTimeTool"]) ∧
      (run file env prompt model).2.countP Event.isAgentRun = 1 ∧
      Event.agentRun prompt ∈ (run file env prompt model).2 := by
  rcases setup_trace_cases file env with hs | hs <;>
    · rw [run_trace_eq, hs]
      refine ⟨by simp [Event.isAgentConstructed, Event.isAgentRun], ?_,
        by simp [Event.isAgentConstructed, Event.isAgentRun], by simp⟩
      intro m ts hmem
      simp [Event.agentConstructed.injEq] at hmem
      exact hmem.2

/-- Witness for C8 at concrete inputs. -/
theorem c8_witness :
    (run [] [] "now?" Model.GTP4_MINI).2.countP Event.isAgentConstructed = 1 :=
  (c8_one_agent_one_tool_one_run [] [] "now?" Model.GTP4_MINI).1

/-- C9: every prompt accepted by the run command reaches the agent's run
operation unchanged: on any successful CLI invocation, the run event with
exactly the given prompt is in the trace, and every run event in the trace
carries exactly that prompt. -/
theorem c9_prompt_passed_unchanged
    (file env : Env) (prompt : String) (modelArg? : Option String)
    (r : Env × List Event)
    (h : runCli file env prompt modelArg? = Except.ok r) :
    Event.agentRun prompt ∈ r.2 ∧
      ∀ q, Event.agentRun q ∈ r.2 → q = prompt := by
  have hm : ∃ m, r = run file env prompt m := by
    cases modelArg? with
    | none =>
      refine ⟨Model.GPT4, ?_⟩
      simpa [runCli] using h.symm
    | some s =>
      cases hp : parseModel s with
      | none => simp [runCli, hp] at h
      | some m =>
        refine ⟨m, ?_⟩
        simp [runCli, hp] at h
        exact h.symm
  obtain ⟨m, rfl⟩ := hm
  rcases setup_trace_cases file env with hs | hs <;>
    · rw [run_trace_eq, hs]
      constructor
      · simp
      · intro q hq
        simpa using hq

/-- Witness for C9 on a concrete successful invocation. -/
theorem c9_witness :
    runCli [] [] "Hello" (some "gpt-3.5-turbo") =
        Except.ok (run [] [] "Hello" Model.GPT35) ∧
      Event.agentRun "Hello" ∈ (run [] [] "Hello" Model.GPT35).2 :=
  ⟨rfl, (c9_prompt_passed_unchanged [] [] "Hello" (some "gpt-3.5-turbo")
    (run [] [] "Hello" Model.GPT35) rfl).1⟩

/-- C10: in managed mode, `setup_cloud_listener` only reads the process
environment: the environment it returns is exactly the one it was given. -/
theorem c10_managed_env_unchanged (file env : Env)
    (h : envMem env markerVar = true) :
    (setup_cloud_listener file env).1 = env := by
  simp [setup_cloud_listener, h]

/-- Witness for C10 at a concrete managed environment. -/
theorem c10_witness :
    envMem [("GT_CLOUD_STRUCTURE_RUN_ID", "run-1"), ("PATH", "/bin")]
        markerVar = true ∧
      (setup_cloud_listener [("SECRET", "x")]
          [("GT_CLOUD_STRUCTURE_RUN_ID", "run-1"), ("PATH", "/bin")]).1 =
        [("GT_CLOUD_STRUCTURE_RUN_ID", "run-1"), ("PATH", "/bin")] :=
  ⟨by decide,
    c10_managed_env_unchanged [("SECRET", "x")]
      [("GT_CLOUD_STRUCTURE_RUN_ID", "run-1"), ("PATH", "/bin")] (by decide)⟩

/-- Witness for C4 at concrete inputs. -/
theorem c4_witness :
    runCli [] [] "hey" none = Except.ok (run [] [] "hey" Model.GPT4) :=
  (c4_default_model_gpt4o [] [] "hey").1

/-- Witness for C5 at a concrete accepted model string. -/
theorem c5_witness :
    (parseModel "gpt-4o-mini").isSome = true :=
  (c5_accepted_models_exact "gpt-4o-mini").mpr (Or.inr (Or.inr rfl))

end StructurePy
